import Mathlib

/-!
Shallow embedding of `city-micro-market` (files `app.py` and `ap.py`).

Text is modelled as `List Char` (a Python `str` is a sequence of code
points).  Pure string helpers (`strip`, `split`, slicing, `startswith`,
`endswith`) are translated directly from Python semantics.  The remote
Gemini call is a parameter `collab : List Char → Except (List Char) (List Char)`:
`.ok t` models `response.text = t`, `.error e` models a raised exception
whose `str(e)` is `e`.  Python `str.format` on a template with named
placeholders is modelled by `pyFormat` over a pre-parsed template
(`TItem.lit` / `TItem.hole`); a missing key raises `KeyError`, modelled as
`Except.error` carrying the key name (Python would quote the name in the
message; the quotes are immaterial here).
-/

/-- Python whitespace for `str.strip` (ASCII fragment, which is all the
sources ever produce). -/
def isPySpace (c : Char) : Bool :=
  c == ' ' || c == '\t' || c == '\n' || c == '\r' || c == '\x0b' || c == '\x0c'

/-- Python `s.strip()`: drop leading and trailing whitespace. -/
def pystrip (l : List Char) : List Char :=
  ((l.dropWhile isPySpace).reverse.dropWhile isPySpace).reverse

/-- `str.strip` lifted to `String` (used by the CSV helpers). -/
def pyStripS (s : String) : String :=
  ⟨pystrip s.data⟩

/-- Python `s.split('\n')`: always returns at least one piece;
`"".split('\n') == [""]`. -/
def splitNl : List Char → List (List Char)
  | [] => [[]]
  | c :: rest =>
    if c = '\n' then [] :: splitNl rest
    else
      match splitNl rest with
      | [] => [[c]]
      | l :: ls => (c :: l) :: ls

/-- Python `line[2:-2]` (empty for strings shorter than 5 characters minus
the overlap, exactly as Python slicing degrades). -/
def pySlice2m2 (l : List Char) : List Char :=
  ((l.drop 2).dropLast).dropLast

/-- Python `', '.join(xs)`. -/
def joinCommaSpace (xs : List (List Char)) : List Char :=
  List.intercalate (", ".toList) xs

/-- A parsed `str.format` template: literal runs and named placeholders. -/
inductive TItem
  | lit (s : List Char)
  | hole (name : String)
deriving DecidableEq, Repr

/-- Python `template.format(**fields)`: left-to-right substitution; the
first placeholder whose name is missing from `fields` raises `KeyError`
(modelled as `.error name`), and no partially substituted string is ever
produced. -/
def pyFormat : List TItem → (String → Option (List Char)) → Except (List Char) (List Char)
  | [], _ => .ok []
  | .lit s :: rest, fields => (pyFormat rest fields).map (fun q => s ++ q)
  | .hole n :: rest, fields =>
    match fields n with
    | none => .error n.toList
    | some v => (pyFormat rest fields).map (fun q => v ++ q)

namespace App

/-- The keyword arguments of `prompt.format(city=city)` in
`create_city_description`. -/
def cityFields (city : List Char) : String → Option (List Char) :=
  fun n => if n = "city" then some city else none

/-- Error prefix of `create_city_description`'s `except` branch. -/
def errCity : List Char := "Error generating city description: ".toList

/-- `create_city_description(prompt, city)` (app.py:68-84): formats the
prompt, calls Gemini, returns `response.text.strip()`; any exception is
caught and returned as an in-band error string. -/
def create_city_description (collab : List Char → Except (List Char) (List Char))
    (prompt : List TItem) (city : List Char) : List Char :=
  match pyFormat prompt (cityFields city) with
  | .error e => errCity ++ e
  | .ok q =>
    match collab q with
    | .error e => errCity ++ e
    | .ok text => pystrip text

/-- The `localities_text` computation of `create_micromarket_description`
(app.py:89-94): `none` models Python `None`. -/
def localitiesText (locs : Option (List (List Char))) : List Char :=
  match locs with
  | none => []
  | some ls =>
    if ls.length > 0 then
      let ll := (ls.filter (fun loc => pystrip loc ≠ ([] : List Char))).map pystrip
      if ll ≠ [] then "\nLocalities to focus on: ".toList ++ joinCommaSpace ll
      else []
    else []

/-- The keyword arguments of
`prompt.format(city=city, micromarket=micromarket, localities=localities_text)`. -/
def mmFields (city mm : List Char) (locs : Option (List (List Char))) :
    String → Option (List Char) :=
  fun n =>
    if n = "city" then some city
    else if n = "micromarket" then some mm
    else if n = "localities" then some (localitiesText locs)
    else none

/-- A template whose placeholders are all among the keyword arguments
passed by `create_micromarket_description`
(`city`, `micromarket`, `localities`). -/
def mmHolesOnly (t : List TItem) : Bool :=
  t.all fun it =>
    match it with
    | .hole n => n == "city" || n == "micromarket" || n == "localities"
    | .lit _ => true

/-- Error prefix of `create_micromarket_description`'s `except` branch. -/
def errMM : List Char := "Error generating micro market description: ".toList

/-- `create_micromarket_description(prompt, city, micromarket, localities)`
(app.py:87-110). -/
def create_micromarket_description (collab : List Char → Except (List Char) (List Char))
    (prompt : List TItem) (city mm : List Char)
    (locs : Option (List (List Char))) : List Char :=
  match pyFormat prompt (mmFields city mm locs) with
  | .error e => errMM ++ e
  | .ok q =>
    match collab q with
    | .error e => errMM ++ e
    | .ok text => pystrip text

/-- One paragraph of the generated document: its run text, the run's bold
flag, the run's font size in points (when set), and whether the paragraph
uses the `List Bullet` style. -/
structure Para where
  text : List Char
  bold : Bool
  size : Option Nat
  bulletStyle : Bool
deriving DecidableEq, Repr

/-- Classification of one already-trimmed non-blank line by the `if`
chain of `create_docx` (app.py:138-156). -/
inductive LineClass
  | heading (text : List Char)
  | bullet (text : List Char)
  | para (text : List Char)
deriving DecidableEq, Repr

/-- The heading test `line.startswith('**') and line.endswith('**')`. -/
def headingCond (t : List Char) : Bool :=
  "**".toList.isPrefixOf t && "**".toList.isSuffixOf t

/-- Classify a trimmed line exactly as the `if`/`elif`/`else` chain of
`create_docx` does: heading first, then bullet, else plain paragraph. -/
def classifyLine (t : List Char) : LineClass :=
  if headingCond t then .heading (pystrip (pySlice2m2 t))
  else if "- ".toList.isPrefixOf t then .bullet (pystrip (t.drop 2))
  else .para t

/-- Paragraph emitted for one classified line (app.py:140-156): headings
are bold at 14pt, bullets use the `List Bullet` style, the rest are plain
runs with the document defaults. -/
def emitPara : LineClass → Para
  | .heading t => ⟨t, true, some 14, false⟩
  | .bullet t => ⟨t, false, none, true⟩
  | .para t => ⟨t, false, none, false⟩

/-- Paragraphs contributed by one raw line of the combined text
(app.py:133-156): blank lines are skipped, every other line yields exactly
one paragraph. -/
def renderLine (raw : List Char) : List Para :=
  let t := pystrip raw
  if t = [] then [] else [emitPara (classifyLine t)]

/-- Paragraphs of a list of raw lines, in order. -/
def renderLines (ls : List (List Char)) : List Para :=
  ls.flatMap renderLine

/-- The fallback paragraph `doc.add_paragraph("No descriptions available.")`. -/
def fallbackPara : Para := ⟨"No descriptions available.".toList, false, none, false⟩

/-- The `combined_text` computation of `create_docx` (app.py:121-126):
city first, then micro market, joined by a blank line when both are
non-empty. -/
def combinedText (cityDesc microDesc : List Char) : List Char :=
  if cityDesc ≠ [] ∧ microDesc ≠ [] then cityDesc ++ "\n\n".toList ++ microDesc
  else if microDesc ≠ [] then microDesc
  else cityDesc

/-- `create_docx(city_description, micromarket_description, ...)`
(app.py:113-162), abstracted to the list of paragraphs it adds to the
document; serialization of that paragraph list to bytes is the `python-docx`
library's concern. -/
def create_docx (cityDesc microDesc : List Char) : List Para :=
  let combined := combinedText cityDesc microDesc
  if combined = [] then [fallbackPara]
  else renderLines (splitNl combined)

/-- One data row of the uploaded CSV (app.py): the columns the lookup
helpers read.  The CSV is user-supplied and `load_csv_data` only checks
that the columns exist, so any cell of any column may be missing: `none`
models a pandas `NaN`.  A `NaN` cell never equals a selected string value
(pandas `NaN == "X"` is `False`), which the `== some city` comparisons
below reproduce. -/
structure Row where
  cityName : Option String
  micromarket : Option String
  locality : Option String
deriving DecidableEq, Repr

/-- pandas `Series.unique().tolist()`: first occurrence of each distinct
value, in order of first appearance. -/
def pdUnique {α : Type} [DecidableEq α] : List α → List α
  | [] => []
  | a :: as => a :: (pdUnique as).filter (fun b => b ≠ a)

/-- Python `sorted` on strings: ascending lexicographic order by code
point. -/
def pySorted (l : List String) : List String :=
  l.insertionSort (· ≤ ·)

/-- The `micromarket` cells of the rows whose `CItyName` equals the
selected city (`df[df['CItyName'] == city]['micromarket']`). -/
def micromarketCells (rows : List Row) (city : String) : List (Option String) :=
  (rows.filter (fun r => r.cityName == some city)).map (·.micromarket)

/-- Python `sorted` over a list of column cells that may contain `NaN`:
an all-string list sorts ascending; a list mixing `NaN` with a string
raises `TypeError` (every such mix forces a float/str comparison during
the sort), modelled as `.error ()`; a `NaN`-only list is returned
unchanged (every `nan` comparison is `False`, so the stable sort keeps
the order). -/
def pySortedCells (l : List (Option String)) : Except Unit (List (Option String)) :=
  if l.any (fun x => x.isNone) then
    if l.any (fun x => x.isSome) then .error ()
    else .ok l
  else .ok ((pySorted (l.filterMap id)).map some)

/-- `get_micromarkets_from_csv(df, city)` (app.py:51-56):
`sorted(unique(cells))` of the matching rows, with no `notna`/blank
filtering at all — so missing cells reach `sorted`, where a str/NaN mix
raises `TypeError`; `[]` when `df is None` or `city` is empty.  pandas
`unique` collapses repeated `NaN` to one, as `pdUnique` over `Option`
does. -/
def get_micromarkets_from_csv (df : Option (List Row)) (city : String) :
    Except Unit (List (Option String)) :=
  match df with
  | none => .ok []
  | some rows =>
    if city ≠ "" then pySortedCells (pdUnique (micromarketCells rows city))
    else .ok []

/-- The filter `pd.notna(loc) and str(loc).strip()` of the locality/city
comprehensions: keep a present, non-blank cell, drop `NaN` and blank
cells. -/
def keepCell : Option String → Option String
  | none => none
  | some s => if pyStripS s ≠ "" then some s else none

/-- `get_localities_from_csv(df, city, micromarket)` (app.py:58-65):
distinct `locality` values of the matching rows, with missing (`NaN`) and
blank entries removed, sorted. -/
def get_localities_from_csv (df : Option (List Row)) (city mm : String) : List String :=
  match df with
  | none => []
  | some rows =>
    if city ≠ "" ∧ mm ≠ "" then
      let localities :=
        pdUnique ((rows.filter (fun r => r.cityName == some city && r.micromarket == some mm)).map (·.locality))
      pySorted (localities.filterMap keepCell)
    else []

end App

namespace Ap

/-- `get_cities_from_csv(df)` (ap.py:51-56): the distinct `CItyName`
values with missing (`NaN`) and blank entries removed, sorted.  The
dataframe is modelled by its single column, a cell being `none` for
`NaN`. -/
def get_cities_from_csv (df : Option (List (Option String))) : List String :=
  match df with
  | none => []
  | some col =>
    App.pySorted ((App.pdUnique col).filterMap App.keepCell)

/-- The fixed `categories` string interpolated into the news prompt
(ap.py:62-68), abbreviated to its words; its exact content never matters
to any property below. -/
def categoriesText : List Char :=
  ("new infrastructure developments or government projects, " ++
   "urban or transport planning announcements, " ++
   "road conditions, traffic disruptions, flooding, or damage, " ++
   "water supply, drainage, or sewage problems, " ++
   "public safety, electricity, or civic security concerns").toList

/-- The keyword arguments of
`prompt.format(start_date=..., end_date=..., city=..., categories=...)`
in `fetch_news`. -/
def newsFields (city startDate endDate : List Char) : String → Option (List Char) :=
  fun n =>
    if n = "start_date" then some startDate
    else if n = "end_date" then some endDate
    else if n = "city" then some city
    else if n = "categories" then some categoriesText
    else none

/-- Error prefix of `fetch_news`'s `except` branch. -/
def errNews : List Char := "Error fetching news: ".toList

/-- `fetch_news(city, start_date, end_date, prompt)` (ap.py:59-109):
formats the prompt, calls Gemini, returns `response.text.strip()`; any
exception is caught and returned as an in-band error string. -/
def fetch_news (collab : List Char → Except (List Char) (List Char))
    (city startDate endDate : List Char) (prompt : List TItem) : List Char :=
  match pyFormat prompt (newsFields city startDate endDate) with
  | .error e => errNews ++ e
  | .ok q =>
    match collab q with
    | .error e => errNews ++ e
    | .ok text => pystrip text

/-- How `main` (ap.py:170-176) presents a `fetch_news` result: an error
box when the text starts with "Error", a warning when it is empty or
starts (case-insensitively) with "no relevant news found", else normal
Markdown. -/
inductive DisplayKind
  | errorBox
  | warningBox
  | markdown
deriving DecidableEq, Repr

/-- Python `s.lower()` (per-character, which is exact on ASCII). -/
def pyLower (l : List Char) : List Char := l.map Char.toLower

/-- The display classification of ap.py:171-176. -/
def displayKind (res : List Char) : DisplayKind :=
  if "Error".toList.isPrefixOf res then .errorBox
  else if res = [] || "no relevant news found".toList.isPrefixOf (pyLower res) then .warningBox
  else .markdown

end Ap

/-! ### Helper lemmas -/

theorem splitNl_ne_nil : ∀ (l : List Char), splitNl l ≠ []
  | [] => by simp [splitNl]
  | c :: rest => by
    by_cases h : c = '\n'
    · simp [splitNl, h]
    · simp only [splitNl, if_neg h]
      cases hs : splitNl rest with
      | nil => simp
      | cons l ls => simp

theorem splitNl_append_newline (a b : List Char) :
    splitNl (a ++ '\n' :: b) = splitNl a ++ splitNl b := by
  induction a with
  | nil => simp [splitNl]
  | cons c a ih =>
    by_cases h : c = '\n'
    · subst h
      simp [splitNl, ih]
    · simp only [List.cons_append, splitNl, if_neg h]
      cases hs : splitNl a with
      | nil => exact absurd hs (splitNl_ne_nil a)
      | cons l ls => rw [List.append_eq, ih, hs]; simp

theorem renderLines_append (a b : List (List Char)) :
    App.renderLines (a ++ b) = App.renderLines a ++ App.renderLines b := by
  simp [App.renderLines]

theorem pyFormat_error_of_missing {t : List TItem} {fields : String → Option (List Char)}
    {n : String} (hm : TItem.hole n ∈ t) (hf : fields n = none) :
    ∃ e, pyFormat t fields = .error e := by
  induction t with
  | nil => cases hm
  | cons it rest ih =>
    cases it with
    | lit s =>
      have hm' : TItem.hole n ∈ rest := by
        rcases List.mem_cons.mp hm with h | h
        · cases h
        · exact h
      obtain ⟨e, he⟩ := ih hm'
      exact ⟨e, by simp [pyFormat, he, Except.map]⟩
    | hole k =>
      cases hfk : fields k with
      | none => exact ⟨k.toList, by simp [pyFormat, hfk]⟩
      | some v =>
        have hm' : TItem.hole n ∈ rest := by
          rcases List.mem_cons.mp hm with h | h
          · cases h
            rw [hfk] at hf
            cases hf
          · exact h
        obtain ⟨e, he⟩ := ih hm'
        exact ⟨e, by simp [pyFormat, hfk, he, Except.map]⟩

theorem pyFormat_ok_of_covered {t : List TItem} {fields : String → Option (List Char)}
    (h : ∀ n, TItem.hole n ∈ t → (fields n).isSome) :
    ∃ q, pyFormat t fields = .ok q := by
  induction t with
  | nil => exact ⟨[], rfl⟩
  | cons it rest ih =>
    have h' : ∀ n, TItem.hole n ∈ rest → (fields n).isSome :=
      fun n hn => h n (List.mem_cons_of_mem _ hn)
    obtain ⟨q, hq⟩ := ih h'
    cases it with
    | lit s => exact ⟨s ++ q, by simp [pyFormat, hq, Except.map]⟩
    | hole k =>
      have hk := h k (List.mem_cons_self _ _)
      cases hfk : fields k with
      | none => rw [hfk] at hk; cases hk
      | some v => exact ⟨v ++ q, by simp [pyFormat, hfk, hq, Except.map]⟩

theorem pdUnique_nodup {α : Type} [DecidableEq α] : ∀ (l : List α), (App.pdUnique l).Nodup
  | [] => List.nodup_nil
  | a :: as => by
    simp only [App.pdUnique, List.nodup_cons]
    refine ⟨fun hmem => ?_, (pdUnique_nodup as).filter _⟩
    have := List.of_mem_filter hmem
    simp at this

theorem pdUnique_mem_iff {α : Type} [DecidableEq α] {x : α} :
    ∀ {l : List α}, x ∈ App.pdUnique l ↔ x ∈ l
  | [] => Iff.rfl
  | a :: as => by
    simp only [App.pdUnique, List.mem_cons, List.mem_filter]
    constructor
    · rintro (rfl | ⟨h, _⟩)
      · exact Or.inl rfl
      · exact Or.inr (pdUnique_mem_iff.mp h)
    · rintro (rfl | h)
      · exact Or.inl rfl
      · by_cases hx : x = a
        · exact Or.inl hx
        · exact Or.inr ⟨pdUnique_mem_iff.mpr h, by simpa using hx⟩

theorem pySorted_sorted (l : List String) : List.Sorted (· ≤ ·) (App.pySorted l) :=
  List.sorted_insertionSort _ l

theorem pySorted_perm (l : List String) : List.Perm (App.pySorted l) l :=
  List.perm_insertionSort _ l

theorem pySorted_nodup {l : List String} (h : l.Nodup) : (App.pySorted l).Nodup :=
  ((pySorted_perm l).nodup_iff).mpr h

theorem isPrefixOf_append (p r : List Char) : (p.isPrefixOf (p ++ r)) = true := by
  induction p with
  | nil => simp
  | cons c p ih => simp [List.isPrefixOf, ih]

/-! ### Claim theorems -/

/-- C4: with both description blocks empty the renderer emits exactly the
single fallback paragraph "No descriptions available." and nothing else. -/
theorem c4_empty_blocks_fallback :
    App.create_docx [] [] =
      [⟨"No descriptions available.".toList, false, none, false⟩] := by
  rfl

/-- C1 counterexample: the line consisting of the bare delimiter `**`
(length 2, so the two markers overlap) is nevertheless classified as a
heading by `create_docx` and emitted as an empty bold 14-point paragraph —
the claimed "length at least 4" requirement does not exist in the code. -/
theorem c1_counterexample :
    App.classifyLine ("**".toList) = App.LineClass.heading [] ∧
    ("**".toList).length = 2 ∧
    App.renderLine ("**".toList) = [⟨[], true, some 14, false⟩] := by
  decide

/-- C1 (amended): a trimmed line is classified as a heading exactly when it
starts and ends with `**`, with no minimum length (for overlapping markers
the stripped text is empty); every such line is emitted as a single bold
14-point paragraph whose text is `line[2:-2].strip()`. -/
theorem c1_heading_amended (raw : List Char) :
    (App.headingCond (pystrip raw) = true →
      App.renderLine raw =
        [⟨pystrip (pySlice2m2 (pystrip raw)), true, some 14, false⟩]) ∧
    (App.headingCond (pystrip raw) = false →
      ∀ h, App.classifyLine (pystrip raw) ≠ App.LineClass.heading h) := by
  constructor
  · intro hc
    have hne : pystrip raw ≠ [] := by
      intro h
      rw [h] at hc
      simp [App.headingCond] at hc
    simp [App.renderLine, hne, App.classifyLine, hc, App.emitPara]
  · intro hc h
    simp only [App.classifyLine, hc, Bool.false_eq_true, if_false]
    split <;> simp

/-- C1 witness: `**Economy**` renders as the single bold 14-point
paragraph `Economy`. -/
theorem c1_amended_witness :
    App.renderLine ("**Economy**".toList) =
      [⟨"Economy".toList, true, some 14, false⟩] :=
  ((c1_heading_amended ("**Economy**".toList)).1 (by decide)).trans (by decide)

/-- C7: the heading check precedes the bullet check — a line delimited by
`**` on both ends whose inner text starts with a dash-space is classified
as a pure heading (never a bullet), keeping the dash inside the heading
text. -/
theorem c7_heading_precedes_bullet (t : List Char)
    (hc : App.headingCond t = true)
    (_hd : ("- ".toList).isPrefixOf (pystrip (pySlice2m2 t)) = true) :
    App.classifyLine t = App.LineClass.heading (pystrip (pySlice2m2 t)) ∧
    ∀ b, App.classifyLine t ≠ App.LineClass.bullet b := by
  refine ⟨by simp [App.classifyLine, hc], ?_⟩
  intro b
  simp [App.classifyLine, hc]

/-- C7 witness: `**- Note**` is classified as the heading `- Note`. -/
theorem c7_witness :
    App.classifyLine ("**- Note**".toList) =
      App.LineClass.heading ("- Note".toList) :=
  ((c7_heading_precedes_bullet ("**- Note**".toList) (by decide) (by decide)).1).trans
    (by decide)

/-- C8: blank and whitespace-only lines contribute no paragraph, and when
both blocks are non-empty the rendered document is exactly the paragraphs
of the city block followed by the paragraphs of the micro-market block —
the blank-line separator produces no stray paragraph. -/
theorem c8_blank_lines_and_separator :
    (∀ raw : List Char, pystrip raw = [] → App.renderLine raw = []) ∧
    (∀ c m : List Char, c ≠ [] → m ≠ [] →
      App.create_docx c m =
        App.renderLines (splitNl c) ++ App.renderLines (splitNl m)) := by
  constructor
  · intro raw h
    simp [App.renderLine, h]
  · intro c m hc hm
    have hcomb : App.combinedText c m = c ++ '\n' :: '\n' :: m := by
      simp only [App.combinedText, if_pos (And.intro hc hm)]
      rw [List.append_assoc]
      rfl
    have hne : c ++ '\n' :: '\n' :: m ≠ [] := by
      intro h
      rcases List.append_eq_nil.mp h with ⟨h1, h2⟩
      exact hc h1
    have hsm : splitNl ('\n' :: m) = [] :: splitNl m := by simp [splitNl]
    have h0 : App.renderLines ([] :: splitNl m) = App.renderLines (splitNl m) := by
      simp [App.renderLines, App.renderLine, pystrip]
    simp only [App.create_docx, hcomb]
    rw [if_neg hne, splitNl_append_newline c ('\n' :: m), hsm, renderLines_append, h0]

/-- C8 witness: two one-line blocks render to exactly their two
paragraphs. -/
theorem c8_witness :
    App.create_docx ("A".toList) ("B".toList) =
      App.renderLines (splitNl ("A".toList)) ++ App.renderLines (splitNl ("B".toList)) :=
  c8_blank_lines_and_separator.2 ("A".toList) ("B".toList) (by decide) (by decide)

/-- C9: the renderer is total — any line yields at most one paragraph,
every non-blank line yields exactly one (falling into exactly one of the
heading / bullet / plain-paragraph branches), and `create_docx` always
produces either the fallback paragraph or the line-by-line rendering of
the combined text. -/
theorem c9_renderer_total :
    (∀ raw : List Char, (App.renderLine raw).length ≤ 1) ∧
    (∀ raw : List Char, pystrip raw ≠ [] → (App.renderLine raw).length = 1) ∧
    (∀ t : List Char,
      (∃ h, App.classifyLine t = App.LineClass.heading h) ∨
      (∃ b, App.classifyLine t = App.LineClass.bullet b) ∨
      (∃ p, App.classifyLine t = App.LineClass.para p)) ∧
    (∀ c m : List Char,
      App.create_docx c m = [App.fallbackPara] ∨
      App.create_docx c m = App.renderLines (splitNl (App.combinedText c m))) := by
  refine ⟨?_, ?_, ?_, ?_⟩
  · intro raw
    by_cases h : pystrip raw = [] <;> simp [App.renderLine, h]
  · intro raw h
    simp [App.renderLine, h]
  · intro t
    simp only [App.classifyLine]
    split
    · exact Or.inl ⟨_, rfl⟩
    · split
      · exact Or.inr (Or.inl ⟨_, rfl⟩)
      · exact Or.inr (Or.inr ⟨_, rfl⟩)
  · intro c m
    by_cases h : App.combinedText c m = [] <;> simp [App.create_docx, h]

/-- C9 witness: the non-blank line `hello` yields exactly one paragraph. -/
theorem c9_witness : (App.renderLine ("hello".toList)).length = 1 :=
  c9_renderer_total.2.1 ("hello".toList) (by decide)

/-- C3: when the template references a placeholder absent from the fields,
substitution fails with the missing-field error and never produces any
(partially substituted) output; wrapped by `create_city_description` the
failure surfaces as the visible in-band error string. -/
theorem c3_missing_field :
    (∀ (template : List TItem) (fields : String → Option (List Char)) (n : String),
        TItem.hole n ∈ template → fields n = none →
        (∃ e, pyFormat template fields = Except.error e) ∧
        ∀ s, pyFormat template fields ≠ Except.ok s) ∧
    (∀ (collab : List Char → Except (List Char) (List Char))
        (template : List TItem) (city : List Char) (n : String),
        TItem.hole n ∈ template → App.cityFields city n = none →
        ∃ e, App.create_city_description collab template city = App.errCity ++ e) := by
  constructor
  · intro template fields n hm hf
    obtain ⟨e, he⟩ := pyFormat_error_of_missing hm hf
    refine ⟨⟨e, he⟩, ?_⟩
    intro s h
    rw [he] at h
    cases h
  · intro collab template city n hm hf
    obtain ⟨e, he⟩ := pyFormat_error_of_missing hm hf
    exact ⟨e, by simp [App.create_city_description, he]⟩

/-- C3 witness: a template with the single unknown placeholder `topic`
fails, and with `create_city_description` the failure is returned as the
error-prefixed string. -/
theorem c3_witness :
    (∃ e, pyFormat [TItem.hole "topic"] (fun _ => none) = Except.error e) ∧
    (∃ e, App.create_city_description (fun _ => Except.ok [])
        [TItem.hole "region"] ("Delhi".toList) = App.errCity ++ e) :=
  ⟨(c3_missing_field.1 [TItem.hole "topic"] (fun _ => none) "topic"
      (List.mem_singleton.mpr rfl) rfl).1,
   c3_missing_field.2 (fun _ => Except.ok []) [TItem.hole "region"] ("Delhi".toList)
      "region" (List.mem_singleton.mpr rfl) rfl⟩

/-- C5: whenever the remote collaborator raises, both generation wrappers
return the error-prefixed in-band string (never an unhandled fault — the
wrappers are total functions into strings), and that message is non-empty;
moreover every result of `create_city_description` is either an
error-prefixed string or the trimmed success text. -/
theorem c5_generation_failure :
    (∀ (collab : List Char → Except (List Char) (List Char))
        (template : List TItem) (city q e : List Char),
        pyFormat template (App.cityFields city) = Except.ok q →
        collab q = Except.error e →
        App.create_city_description collab template city = App.errCity ++ e ∧
        App.create_city_description collab template city ≠ []) ∧
    (∀ (collab : List Char → Except (List Char) (List Char))
        (city sd ed q e : List Char) (prompt : List TItem),
        pyFormat prompt (Ap.newsFields city sd ed) = Except.ok q →
        collab q = Except.error e →
        Ap.fetch_news collab city sd ed prompt = Ap.errNews ++ e ∧
        Ap.fetch_news collab city sd ed prompt ≠ []) ∧
    (∀ (collab : List Char → Except (List Char) (List Char))
        (template : List TItem) (city : List Char),
        (∃ e, App.create_city_description collab template city = App.errCity ++ e) ∨
        (∃ q s, pyFormat template (App.cityFields city) = Except.ok q ∧
          collab q = Except.ok s ∧
          App.create_city_description collab template city = pystrip s)) := by
  refine ⟨?_, ?_, ?_⟩
  · intro collab template city q e hq hc
    have h : App.create_city_description collab template city = App.errCity ++ e := by
      simp [App.create_city_description, hq, hc]
    refine ⟨h, ?_⟩
    rw [h]
    simp [App.errCity]
  · intro collab city sd ed q e prompt hq hc
    have h : Ap.fetch_news collab city sd ed prompt = Ap.errNews ++ e := by
      simp [Ap.fetch_news, hq, hc]
    refine ⟨h, ?_⟩
    rw [h]
    simp [Ap.errNews]
  · intro collab template city
    cases hq : pyFormat template (App.cityFields city) with
    | error e => exact Or.inl ⟨e, by simp [App.create_city_description, hq]⟩
    | ok q =>
      cases hc : collab q with
      | error e => exact Or.inl ⟨e, by simp [App.create_city_description, hq, hc]⟩
      | ok s =>
        refine Or.inr ⟨q, s, rfl, hc, ?_⟩
        simp [App.create_city_description, hq, hc]

/-- C5 witness: a collaborator stub that raises makes
`create_city_description` return the non-empty error-prefixed string. -/
theorem c5_witness :
    App.create_city_description (fun _ => Except.error ("quota exceeded".toList))
        [TItem.hole "city"] ("Delhi".toList) =
      App.errCity ++ "quota exceeded".toList ∧
    App.create_city_description (fun _ => Except.error ("quota exceeded".toList))
        [TItem.hole "city"] ("Delhi".toList) ≠ [] :=
  c5_generation_failure.1 (fun _ => Except.error ("quota exceeded".toList))
    [TItem.hole "city"] ("Delhi".toList) ("Delhi".toList) ("quota exceeded".toList)
    rfl rfl

/-- C6: with localities `None`, `[]`, or all whitespace-only, the
`localities` placeholder substitutes to the empty string, and for any
template whose placeholders are among the composer's keyword arguments the
composition succeeds (throws nothing, omits nothing) and equals the
composition with an explicitly empty localities list. -/
theorem c6_empty_localities (locs : Option (List (List Char)))
    (hempty : locs = none ∨ locs = some [] ∨ ∀ l ∈ locs.getD [], pystrip l = []) :
    App.localitiesText locs = [] ∧
    ∀ (city mm : List Char) (template : List TItem),
      App.mmHolesOnly template = true →
      ∃ q, pyFormat template (App.mmFields city mm locs) = Except.ok q ∧
           pyFormat template (App.mmFields city mm (some [])) = Except.ok q := by
  have hlt : App.localitiesText locs = [] := by
    rcases hempty with h | h | h
    · rw [h]
      rfl
    · rw [h]
      rfl
    · cases locs with
      | none => rfl
      | some ls =>
        simp only [Option.getD] at h
        have hfilter : ls.filter (fun loc => pystrip loc ≠ ([] : List Char)) = [] := by
          rw [List.filter_eq_nil_iff]
          intro a ha
          simp [h a ha]
        simp [App.localitiesText, hfilter]
        exact fun _ => h
  refine ⟨hlt, ?_⟩
  intro city mm template hcov
  have hfun : App.mmFields city mm locs = App.mmFields city mm (some []) := by
    funext n
    simp only [App.mmFields, hlt]
    rfl
  have hcov' : ∀ n, TItem.hole n ∈ template → ((App.mmFields city mm locs) n).isSome := by
    intro n hn
    have hall := List.all_eq_true.mp hcov _ hn
    simp only [Bool.or_eq_true, beq_iff_eq] at hall
    rcases hall with (h | h) | h <;> simp [App.mmFields, h]
  obtain ⟨q, hq⟩ := pyFormat_ok_of_covered hcov'
  exact ⟨q, hq, by rw [← hfun]; exact hq⟩

/-- C6 witness: a whitespace-only localities list substitutes to the empty
string and composing a template over all three placeholders succeeds. -/
theorem c6_witness :
    App.localitiesText (some ["   ".toList]) = [] ∧
    ∃ q, pyFormat [TItem.hole "micromarket", TItem.hole "localities"]
        (App.mmFields ("Gurgaon".toList) ("Golf Course Road".toList)
          (some ["   ".toList])) = Except.ok q ∧
      pyFormat [TItem.hole "micromarket", TItem.hole "localities"]
        (App.mmFields ("Gurgaon".toList) ("Golf Course Road".toList)
          (some [])) = Except.ok q := by
  have h := c6_empty_localities (some ["   ".toList])
    (Or.inr (Or.inr (by decide)))
  exact ⟨h.1, h.2 ("Gurgaon".toList) ("Golf Course Road".toList)
    [TItem.hole "micromarket", TItem.hole "localities"] (by decide)⟩

/-- C10: success and failure of a news generation call are distinguished
only by the in-band `Error` prefix — a raising collaborator makes
`fetch_news` return a string starting with `Error`, the display layer
classifies a result as a failure exactly when it starts with `Error`, and
a genuinely generated text that happens to start with `Error` is shown as
a failure. -/
theorem c10_inband_error_protocol :
    (∀ (collab : List Char → Except (List Char) (List Char))
        (city sd ed q e : List Char) (prompt : List TItem),
        pyFormat prompt (Ap.newsFields city sd ed) = Except.ok q →
        collab q = Except.error e →
        ("Error".toList).isPrefixOf (Ap.fetch_news collab city sd ed prompt) = true) ∧
    (∀ s : List Char,
        Ap.displayKind s = Ap.DisplayKind.errorBox ↔
          ("Error".toList).isPrefixOf s = true) ∧
    (∀ (collab : List Char → Except (List Char) (List Char))
        (city sd ed q t : List Char) (prompt : List TItem),
        pyFormat prompt (Ap.newsFields city sd ed) = Except.ok q →
        collab q = Except.ok t →
        ("Error".toList).isPrefixOf (pystrip t) = true →
        Ap.fetch_news collab city sd ed prompt = pystrip t ∧
        Ap.displayKind (Ap.fetch_news collab city sd ed prompt) =
          Ap.DisplayKind.errorBox) := by
  refine ⟨?_, ?_, ?_⟩
  · intro collab city sd ed q e prompt hq hc
    have h : Ap.fetch_news collab city sd ed prompt = Ap.errNews ++ e := by
      simp [Ap.fetch_news, hq, hc]
    rw [h]
    have : Ap.errNews ++ e = "Error".toList ++ (" fetching news: ".toList ++ e) := by
      rw [← List.append_assoc]
      rfl
    rw [this]
    exact isPrefixOf_append _ _
  · intro s
    constructor
    · intro h
      by_cases hp : ("Error".toList).isPrefixOf s = true
      · exact hp
      · exfalso
        simp only [Ap.displayKind, hp, Bool.false_eq_true, if_false] at h
        split at h <;> cases h
    · intro hp
      simp only [Ap.displayKind]
      rw [if_pos hp]
  · intro collab city sd ed q t prompt hq hc hp
    have h : Ap.fetch_news collab city sd ed prompt = pystrip t := by
      simp [Ap.fetch_news, hq, hc]
    refine ⟨h, ?_⟩
    rw [h]
    simp only [Ap.displayKind]
    rw [if_pos hp]

/-- C10 witness: a successfully generated text that happens to start with
`Error` is displayed as a failure. -/
theorem c10_witness :
    Ap.displayKind (Ap.fetch_news (fun _ => Except.ok ("Error rates dropped".toList))
        ("Delhi".toList) ("2026-10-05".toList) ("2026-10-12".toList)
        [TItem.hole "city"]) = Ap.DisplayKind.errorBox :=
  (c10_inband_error_protocol.2.2 (fun _ => Except.ok ("Error rates dropped".toList))
    ("Delhi".toList) ("2026-10-05".toList) ("2026-10-12".toList)
    ("Delhi".toList) ("Error rates dropped".toList) [TItem.hole "city"]
    rfl rfl (by decide)).2

theorem keepCell_eq_some {a : Option String} {b : String}
    (h : App.keepCell a = some b) : a = some b ∧ pyStripS b ≠ "" := by
  cases a with
  | none => cases h
  | some s =>
    simp only [App.keepCell] at h
    by_cases hc : pyStripS s ≠ ""
    · rw [if_pos hc] at h
      injection h with h'
      subst h'
      exact ⟨rfl, hc⟩
    · rw [if_neg hc] at h
      cases h

theorem keepCell_nodup {l : List (Option String)} (h : l.Nodup) :
    (l.filterMap App.keepCell).Nodup := by
  refine h.filterMap ?_
  intro a a' b hb hb'
  have h1 := (keepCell_eq_some (Option.mem_def.mp hb)).1
  have h2 := (keepCell_eq_some (Option.mem_def.mp hb')).1
  rw [h1, h2]

/-- C2 counterexample: a frame whose only row has a blank micromarket
cell makes `get_micromarkets_from_csv` return that blank entry, and a
frame mixing a present and a missing micromarket cell makes the
underlying `sorted` raise `TypeError` — this lookup filters neither
blanks nor missing entries. -/
theorem c2_counterexample :
    App.get_micromarkets_from_csv (some [⟨some "X", some "", some "L"⟩]) "X" =
      Except.ok [some ""] ∧
    pyStripS "" = "" ∧
    App.get_micromarkets_from_csv
      (some [⟨some "X", some "M", some "L"⟩, ⟨some "X", none, some "L"⟩]) "X" =
      Except.error () := ⟨rfl, rfl, rfl⟩

/-- C2 (amended): the localities lookup and the `ap.py` cities lookup
return ascending-sorted, deduplicated lists of present, non-blank
entries.  The micromarkets lookup filters neither blanks nor missing
entries: with all matching cells present it returns them deduplicated and
ascending-sorted (blanks included); with a mix of present and missing
cells `sorted` raises `TypeError`; with all matching cells missing it
returns the `NaN` entry itself. -/
theorem c2_amended :
    (∀ (rows : List App.Row) (city : String), city ≠ "" →
        ((∀ c ∈ App.micromarketCells rows city, c.isSome = true) →
          ∃ ss, App.get_micromarkets_from_csv (some rows) city =
              Except.ok (ss.map some) ∧
            List.Sorted (· ≤ ·) ss ∧ ss.Nodup) ∧
        ((∃ c ∈ App.micromarketCells rows city, c = none) →
          (∃ c ∈ App.micromarketCells rows city, c.isSome = true) →
          App.get_micromarkets_from_csv (some rows) city = Except.error ()) ∧
        ((∀ c ∈ App.micromarketCells rows city, c = none) →
          App.micromarketCells rows city ≠ [] →
          ∃ out, App.get_micromarkets_from_csv (some rows) city = Except.ok out ∧
            none ∈ out ∧ out.Nodup)) ∧
    (∀ (df : Option (List App.Row)) (city mm : String),
        List.Sorted (· ≤ ·) (App.get_localities_from_csv df city mm) ∧
        (App.get_localities_from_csv df city mm).Nodup ∧
        ∀ s ∈ App.get_localities_from_csv df city mm, pyStripS s ≠ "") ∧
    (∀ df : Option (List (Option String)),
        List.Sorted (· ≤ ·) (Ap.get_cities_from_csv df) ∧
        (Ap.get_cities_from_csv df).Nodup ∧
        ∀ s ∈ Ap.get_cities_from_csv df, pyStripS s ≠ "") := by
  refine ⟨?_, ?_, ?_⟩
  · intro rows city hcity
    simp only [App.get_micromarkets_from_csv, if_pos hcity]
    refine ⟨?_, ?_, ?_⟩
    · intro hall
      have hno : (App.pdUnique (App.micromarketCells rows city)).any
          (fun x => x.isNone) = false := by
        rw [List.any_eq_false]
        intro x hx
        have hx' := pdUnique_mem_iff.mp hx
        have := hall x hx'
        cases x with
        | none => cases this
        | some s => simp
      refine ⟨App.pySorted ((App.pdUnique (App.micromarketCells rows city)).filterMap id),
        ?_, pySorted_sorted _, ?_⟩
      · simp [App.pySortedCells, hno]
      · refine pySorted_nodup ((pdUnique_nodup _).filterMap ?_)
        intro a a' b hb hb'
        rw [Option.mem_def] at hb hb'
        exact hb.trans hb'.symm
    · intro hnone hsome
      obtain ⟨c0, hc0, hc0n⟩ := hnone
      obtain ⟨c1, hc1, hc1s⟩ := hsome
      have h1 : (App.pdUnique (App.micromarketCells rows city)).any
          (fun x => x.isNone) = true := by
        rw [List.any_eq_true]
        exact ⟨c0, pdUnique_mem_iff.mpr hc0, by rw [hc0n]; rfl⟩
      have h2 : (App.pdUnique (App.micromarketCells rows city)).any
          (fun x => x.isSome) = true := by
        rw [List.any_eq_true]
        exact ⟨c1, pdUnique_mem_iff.mpr hc1, hc1s⟩
      simp [App.pySortedCells, h1, h2]
    · intro hall hne
      have hmem : (none : Option String) ∈ App.micromarketCells rows city := by
        cases hcs : App.micromarketCells rows city with
        | nil => exact absurd hcs hne
        | cons c cs =>
          have := hall c (by rw [hcs]; exact List.mem_cons_self _ _)
          rw [← this]
          exact List.mem_cons_self _ _
      have h1 : (App.pdUnique (App.micromarketCells rows city)).any
          (fun x => x.isNone) = true := by
        rw [List.any_eq_true]
        exact ⟨none, pdUnique_mem_iff.mpr hmem, rfl⟩
      have h2 : (App.pdUnique (App.micromarketCells rows city)).any
          (fun x => x.isSome) = false := by
        rw [List.any_eq_false]
        intro x hx
        have := hall x (pdUnique_mem_iff.mp hx)
        rw [this]
        simp
      refine ⟨App.pdUnique (App.micromarketCells rows city), ?_,
        pdUnique_mem_iff.mpr hmem, pdUnique_nodup _⟩
      simp [App.pySortedCells, h1, h2]
  · intro df city mm
    cases df with
    | none => simp [App.get_localities_from_csv]
    | some rows =>
      by_cases h : city ≠ "" ∧ mm ≠ ""
      · simp only [App.get_localities_from_csv, if_pos h]
        refine ⟨pySorted_sorted _, pySorted_nodup (keepCell_nodup (pdUnique_nodup _)), ?_⟩
        intro s hs
        have hs' := (pySorted_perm _).mem_iff.mp hs
        obtain ⟨a, _, hka⟩ := List.mem_filterMap.mp hs'
        exact (keepCell_eq_some hka).2
      · simp [App.get_localities_from_csv, if_neg h]
  · intro df
    cases df with
    | none => simp [Ap.get_cities_from_csv]
    | some col =>
      simp only [Ap.get_cities_from_csv]
      refine ⟨pySorted_sorted _, pySorted_nodup (keepCell_nodup (pdUnique_nodup _)), ?_⟩
      intro s hs
      have hs' := (pySorted_perm _).mem_iff.mp hs
      obtain ⟨a, _, hka⟩ := List.mem_filterMap.mp hs'
      exact (keepCell_eq_some hka).2

/-- C2 witness: an all-present two-cell frame yields a sorted, nodup
micromarket list; an all-missing frame returns the `NaN` entry; a
locality returned by the localities lookup is non-blank. -/
theorem c2_amended_witness :
    (∃ ss, App.get_micromarkets_from_csv
        (some [⟨some "X", some "M2", none⟩, ⟨some "X", some "M1", none⟩]) "X" =
          Except.ok (ss.map some) ∧
      List.Sorted (· ≤ ·) ss ∧ ss.Nodup) ∧
    (∃ out, App.get_micromarkets_from_csv (some [⟨some "X", none, none⟩]) "X" =
          Except.ok out ∧
      none ∈ out ∧ out.Nodup) ∧
    pyStripS "L1" ≠ "" :=
  ⟨(c2_amended.1 [⟨some "X", some "M2", none⟩, ⟨some "X", some "M1", none⟩] "X"
      (by decide)).1 (by decide),
   (c2_amended.1 [⟨some "X", none, none⟩] "X" (by decide)).2.2 (by decide) (by decide),
   (c2_amended.2.1 (some [⟨some "X", some "M", some "L1"⟩]) "X" "M").2.2 "L1" (by decide)⟩
